import Mathlib

/-!
Verification of the `@vamship/ssh-utils` command-execution engine
(`src/ssh-client.js`) and session configurator (`src/remote-client.js`).

The engine is embedded in two complementary ways:

* a deterministic interpreter `runCommandSet` over a per-command transport
  behavior oracle (`CmdBehavior`), capturing the result list and submission
  log produced by `_runCommandSet` when the transport follows its protocol;
* an event-level state machine (`EState`, `step`) capturing the
  backpressure protocol: the one-shot resume slot (`_finishMethod`),
  the `continue` notification, and the submission discipline.

The session configurator (`RemoteClient` constructor and
`getConnectionOptions`) is embedded with an explicit storage oracle and a
count of storage reads.
-/

namespace SshUtils

/-- JS `Error` values are modelled by their message string. -/
abbrev Err := String

/-- Message of the error constructed on a non-zero exit code
(`ssh-client.js` line 103). -/
def nonZeroExitMsg : Err := "Program exited with non zero exit code"

/-- Message of the `ArgError` thrown for a malformed `commands` argument
(`ssh-client.js` line 161). -/
def invalidCommandsMsg : Err := "Invalid command(s) (arg #1)"

/-- One per attempted command (`ExecutionResult` in `ssh-client.js`).
`exitCode = none` models the field being absent (command never reached
stream close); `error = none` models the absent `error` field. -/
structure CommandResult where
  command : String
  success : Bool
  exitCode : Option Int
  stdout : String
  stderr : String
  error : Option Err
  deriving Repr, DecidableEq

/-- The aggregate summary resolved by `run()`
(`SshExecutionResults` in `ssh-client.js`). -/
structure ExecutionSummary where
  commandCount : Nat
  successCount : Nat
  failureCount : Nat
  results : List CommandResult
  deriving Repr, DecidableEq

/-- Transport behavior for one submitted command: the boolean returned by
`client.exec` (ready-for-next), the argument of the exec start callback
(`some e` = start error), the stdout/stderr chunks delivered before close,
and the exit code delivered at close. -/
structure CmdBehavior where
  callNext : Bool
  start : Option Err
  stdoutChunks : List String
  stderrChunks : List String
  exitCode : Int
  deriving Repr

/-- Whether a command with behavior `b` completes successfully:
the exec callback reports no error and the exit code is zero. -/
def okB (b : CmdBehavior) : Bool := b.start.isNone && decide (b.exitCode = 0)

/-- The `CommandResult` recorded for a command that runs to a zero exit
code: pushed with `success = true`, stdout/stderr accumulated in arrival
order, `exitCode` set at close. -/
def successResult (c : String) (b : CmdBehavior) : CommandResult :=
  { command := c, success := true, exitCode := some b.exitCode,
    stdout := String.join b.stdoutChunks, stderr := String.join b.stderrChunks,
    error := none }

/-- The `CommandResult` recorded for a failing command. On a start error
the result keeps no `exitCode` and empty streams (`ssh-client.js` lines
84-97); on a non-zero exit the accumulated streams and the exit code are
kept and the generic non-zero-exit error is attached (lines 100-108). -/
def failResult (c : String) (b : CmdBehavior) : CommandResult :=
  match b.start with
  | some e =>
    { command := c, success := false, exitCode := none,
      stdout := "", stderr := "", error := some e }
  | none =>
    { command := c, success := false, exitCode := some b.exitCode,
      stdout := String.join b.stdoutChunks, stderr := String.join b.stderrChunks,
      error := some nonZeroExitMsg }

/-- One iteration of the `Promise.mapSeries` body in `_runCommandSet`:
the recorded result and whether the iteration resolved (`true`) or
rejected (`false`). -/
def execOne (c : String) (b : CmdBehavior) : CommandResult × Bool :=
  match b.start with
  | some e =>
    ({ command := c, success := false, exitCode := none,
       stdout := "", stderr := "", error := some e }, false)
  | none =>
    if b.exitCode ≠ 0 then
      ({ command := c, success := false, exitCode := some b.exitCode,
         stdout := String.join b.stdoutChunks,
         stderr := String.join b.stderrChunks,
         error := some nonZeroExitMsg }, false)
    else
      ({ command := c, success := true, exitCode := some b.exitCode,
         stdout := String.join b.stdoutChunks,
         stderr := String.join b.stderrChunks,
         error := none }, true)

/-- `_runCommandSet` (`ssh-client.js` lines 79-143): runs the worklist
sequentially, aborting after the first rejection; the `.catch` handler
returns the partial `results` array, so the returned list is total either
way. The second component is the submission log: the commands actually
passed to `client.exec`, in order. -/
def runCommandSet : List String → (Nat → CmdBehavior) → List CommandResult × List String
  | [], _ => ([], [])
  | c :: rest, beh =>
    let r := execOne c (beh 0)
    if r.2 then
      let tail := runCommandSet rest (fun i => beh (i + 1))
      (r.1 :: tail.1, c :: tail.2)
    else ([r.1], [c])

/-- The `commands` argument of `run()`: a string, an array of strings, or
any other JS value (`other`). -/
inductive RunArg where
  | str (s : String)
  | list (l : List String)
  | other

/-- The validation prologue of `run()` (`ssh-client.js` lines 157-161):
a non-empty string is wrapped into a one-element array
(`_argValidator.checkString(commands, 1)`), then
`_argValidator.checkArray` throws an `ArgError` on anything that is not
an array. -/
def normalizeCommands : RunArg → Except Err (List String)
  | .str s => if 1 ≤ s.length then .ok [s] else .error invalidCommandsMsg
  | .list l => .ok l
  | .other => .error invalidCommandsMsg

/-- Outcome of the connection attempt: the ssh2 client emits `ready`, or
emits `error` before ready. -/
inductive ConnOutcome where
  | ready
  | error (e : Err)

/-- Observable outcome of one `run()` call. `resolveLog` records, in
order, the values passed to `resolve` of the inner promise on the ready
path (the `.then` handler resolves the summary; the `.finally` handler
resolves its own — undefined — argument, modelled as `none`); the first
entry wins. `endCount` counts `client.end()` calls; `connectAttempted`
records whether a client was constructed and `connect` called;
`submitted` is the submission log of the command loop. -/
structure RunOutcome where
  result : Except Err ExecutionSummary
  connectAttempted : Bool
  endCount : Nat
  resolveLog : List (Option ExecutionSummary)
  submitted : List String
  deriving Repr

/-- Tally of `execResult.successCount` (`ssh-client.js` lines 181-187). -/
def countSuccesses (rs : List CommandResult) : Nat := rs.countP (fun r => r.success)

/-- Tally of `execResult.failureCount` (`ssh-client.js` lines 181-187). -/
def countFailures (rs : List CommandResult) : Nat := rs.countP (fun r => !r.success)

/-- The summary object assembled by `run()` (`ssh-client.js` lines
163-189). -/
def mkSummary (cmds : List String) (rs : List CommandResult) : ExecutionSummary :=
  { commandCount := cmds.length, successCount := countSuccesses rs,
    failureCount := countFailures rs, results := rs }

/-- `run()` (`ssh-client.js` lines 157-207). Validation happens
synchronously before any connection attempt. On `ready`, the command set
runs, the summary is resolved by the `.then` handler, and the `.finally`
handler resolves again (a no-op, first resolution wins) and calls
`client.end()` once. On a connection `error`, `client.end()` is called
and the promise rejected; no summary is produced. -/
def run (arg : RunArg) (conn : ConnOutcome) (beh : Nat → CmdBehavior) : RunOutcome :=
  match normalizeCommands arg with
  | .error e =>
    { result := .error e, connectAttempted := false, endCount := 0,
      resolveLog := [], submitted := [] }
  | .ok cmds =>
    match conn with
    | .error e =>
      { result := .error e, connectAttempted := true, endCount := 1,
        resolveLog := [], submitted := [] }
    | .ready =>
      let r := runCommandSet cmds beh
      let summary := mkSummary cmds r.1
      { result := .ok summary, connectAttempted := true, endCount := 1,
        resolveLog := [some summary, none], submitted := r.2 }

/-! ## Event-level model of the command loop

`_runCommandSet` drives a small asynchronous state machine: after
`client.exec(command, cb)` the iteration waits for the start callback,
then for stream events, and — when `exec` returned `false` — for a
`continue` notification before the next submission. The one-shot
`_finishMethod` slot is the `waiting` phase below. Events not matched by
any installed listener leave the state unchanged. -/

/-- The in-flight command together with the boolean `client.exec`
returned for it (the ready-for-next signal `callNext`). -/
structure CurrentCmd where
  command : String
  callNext : Bool
  deriving Repr, DecidableEq

/-- Where the loop currently stands. `submitted`: `exec` called, start
callback pending. `streaming`: stream open, listeners attached.
`waiting`: the command closed successfully but `callNext` was false, so
`_finishMethod` is installed and the loop waits for `continue`.
`done`: worklist exhausted or aborted. -/
inductive Phase where
  | submitted (c : CurrentCmd)
  | streaming (c : CurrentCmd)
  | waiting
  | done
  deriving Repr, DecidableEq

/-- Transport events observable by the engine. -/
inductive Event where
  | startErr (e : Err)
  | startOk
  | data (d : String)
  | errData (d : String)
  | close (code : Int)
  | cont
  deriving Repr, DecidableEq

/-- Engine state: remaining worklist, current phase, accumulated results
array, and the log of commands submitted to `client.exec` so far. -/
structure EState where
  queue : List String
  phase : Phase
  results : List CommandResult
  subLog : List String
  deriving Repr, DecidableEq

/-- Submit the next command from the worklist (or finish the loop when it
is empty). The ready oracle gives the boolean `client.exec` returns for
the n-th submission. -/
def submitNext (ready : Nat → Bool) (s : EState) : EState :=
  match s.queue with
  | [] => { s with phase := .done }
  | c :: rest =>
    { s with
      queue := rest
      phase := .submitted ⟨c, ready s.subLog.length⟩
      subLog := s.subLog ++ [c] }

/-- Initial state of `_runCommandSet` on worklist `cmds`: the first
command is submitted immediately (an empty worklist finishes at once). -/
def initState (ready : Nat → Bool) (cmds : List String) : EState :=
  submitNext ready { queue := cmds, phase := .done, results := [], subLog := [] }

/-- Mutate the most recently pushed result (the JS closures hold a
reference to the `result` object already pushed into `results`). -/
def modifyLast (f : CommandResult → CommandResult) : List CommandResult → List CommandResult
  | [] => []
  | [r] => [f r]
  | r :: rs => r :: modifyLast f rs

/-- The close listener's update of the current result
(`ssh-client.js` lines 100-108): set `exitCode`; on a non-zero code also
flip `success` and attach the generic error. -/
def closeResult (code : Int) (r : CommandResult) : CommandResult :=
  if code ≠ 0 then
    { r with exitCode := some code, success := false, error := some nonZeroExitMsg }
  else
    { r with exitCode := some code }

/-- One engine transition per transport event, translated from the
listeners installed in `_runCommandSet`:
* start callback with an error: push a failed result, abort the worklist;
* start callback with a stream: push the provisional successful result,
  attach stream listeners;
* `data` on stdout/stderr: append to the current result;
* `close code`: update the result; a non-zero code aborts; a zero code
  either submits the next command at once (`callNext` true) or installs
  the one-shot `_finishMethod` (`waiting`);
* `continue`: invoke `_finishMethod` when installed — submitting the next
  command — and do nothing otherwise. -/
def step (ready : Nat → Bool) (s : EState) : Event → EState
  | .startErr e =>
    match s.phase with
    | .submitted c =>
      { s with
        phase := .done
        queue := []
        results := s.results ++
          [{ command := c.command, success := false, exitCode := none,
             stdout := "", stderr := "", error := some e }] }
    | _ => s
  | .startOk =>
    match s.phase with
    | .submitted c =>
      { s with
        phase := .streaming c
        results := s.results ++
          [{ command := c.command, success := true, exitCode := none,
             stdout := "", stderr := "", error := none }] }
    | _ => s
  | .data d =>
    match s.phase with
    | .streaming _ =>
      { s with results := modifyLast (fun r => { r with stdout := r.stdout ++ d }) s.results }
    | _ => s
  | .errData d =>
    match s.phase with
    | .streaming _ =>
      { s with results := modifyLast (fun r => { r with stderr := r.stderr ++ d }) s.results }
    | _ => s
  | .close code =>
    match s.phase with
    | .streaming c =>
      let rs := modifyLast (closeResult code) s.results
      if code ≠ 0 then { s with phase := .done, queue := [], results := rs }
      else if c.callNext then submitNext ready { s with results := rs }
      else { s with phase := .waiting, results := rs }
    | _ => s
  | .cont =>
    match s.phase with
    | .waiting => submitNext ready s
    | _ => s

/-! ## Session configurator (`src/remote-client.js`) -/

/-- The `ClientConfig` options object handed to the `RemoteClient`
constructor; every field may be absent or of the wrong shape, so each is
optional (a absent-or-invalid field and an absent field behave alike
under the validators used). -/
structure ClientOptions where
  host : Option String
  port : Option Int
  username : Option String
  password : Option String
  privateKey : Option String

/-- `_argValidator.checkString(x, minLen)`: a string of at least
`minLen` characters. -/
def validString (o : Option String) (minLen : Nat) : Bool :=
  match o with
  | some s => minLen ≤ s.length
  | none => false

/-- The configured client state built by the `RemoteClient` constructor
(`remote-client.js` lines 39-83). `privateKeyData` is the key-material
cache, `none` until the first successful load. -/
structure RemoteClient where
  host : String
  port : Int
  username : String
  password : Option String
  privateKey : Option String
  privateKeyData : Option String
  deriving Repr, DecidableEq

/-- Port defaulting (`remote-client.js` lines 57-59): keep a configured
number ≥ 1, otherwise default to 22. -/
def normPort (o : ClientOptions) : Int :=
  match o.port with
  | some n => if 1 ≤ n then n else 22
  | none => 22

/-- Private-key blanking (`remote-client.js` lines 60-62): anything but a
non-empty string becomes `undefined`. -/
def normKey (o : ClientOptions) : Option String :=
  match o.privateKey with
  | some s => if 1 ≤ s.length then some s else none
  | none => none

/-- Password blanking (`remote-client.js` lines 63-65): anything but a
non-empty string becomes `undefined`. -/
def normPassword (o : ClientOptions) : Option String :=
  match o.password with
  | some s => if 1 ≤ s.length then some s else none
  | none => none

/-- The `RemoteClient` constructor: validates host and username, defaults
the port, blanks out non-string or empty `privateKey`/`password`, and
throws when both credentials are absent. -/
def mkRemoteClient (o : ClientOptions) : Except Err RemoteClient :=
  if validString o.host 1 = false then
    .error "Invalid host (options.host)"
  else if validString o.username 1 = false then
    .error "Invalid username (options.username)"
  else if (normKey o).isNone && (normPassword o).isNone then
    .error "Invalid password (options.password) or private key (options.privateKey). Must provide at least one."
  else
    .ok { host := o.host.getD "", port := normPort o, username := o.username.getD "",
          password := normPassword o, privateKey := normKey o, privateKeyData := none }

/-- The connection-options object produced by `getConnectionOptions`.
Absent fields are `none`; `privateKey` here holds the loaded key bytes,
not the path. -/
structure ConnectionOptions where
  host : String
  port : Int
  username : String
  password : Option String
  passphrase : Option String
  privateKey : Option String
  deriving Repr, DecidableEq

/-- Observable outcome of one `getConnectionOptions` call: the resolved
or rejected value, the post-call client state (the cache may have been
filled), and the number of `fs.readFile` calls performed. -/
structure ResolveOutcome where
  result : Except Err ConnectionOptions
  client : RemoteClient
  reads : Nat
  deriving Repr

/-- `getConnectionOptions` (`remote-client.js` lines 104-148) with the
file system as oracle `fs`. Password path: no key configured, the
password becomes the `password` field. Key path: cached key material is
reused without a read; otherwise one `fs.readFile` happens — on error the
promise rejects with the storage error (the cache slot is assigned the
absent data, staying empty); on success the data is cached, becomes the
`privateKey` field, and the configured password becomes the `passphrase`
field. -/
def getConnectionOptions (fs : String → Except Err String) (c : RemoteClient) : ResolveOutcome :=
  let base : ConnectionOptions :=
    { host := c.host, port := c.port, username := c.username,
      password := none, passphrase := none, privateKey := none }
  match c.privateKey with
  | none =>
    { result := .ok { base with password := c.password }, client := c, reads := 0 }
  | some keyPath =>
    match c.privateKeyData with
    | some cached =>
      { result := .ok { base with passphrase := c.password, privateKey := some cached },
        client := c, reads := 0 }
    | none =>
      match fs keyPath with
      | .error e =>
        { result := .error e, client := { c with privateKeyData := none }, reads := 1 }
      | .ok keyData =>
        { result := .ok { base with passphrase := c.password, privateKey := some keyData },
          client := { c with privateKeyData := some keyData }, reads := 1 }

/-! ## Basic lemmas about the command loop -/

theorem execOne_snd (c : String) (b : CmdBehavior) : (execOne c b).2 = okB b := by
  unfold execOne okB
  cases hb : b.start with
  | some e => simp
  | none =>
    by_cases hc : b.exitCode = 0 <;> simp [hc]

theorem execOne_ok (c : String) (b : CmdBehavior) (h : okB b = true) :
    execOne c b = (successResult c b, true) := by
  unfold okB at h
  cases hb : b.start with
  | some e => rw [hb] at h; simp at h
  | none =>
    rw [hb] at h
    simp only [Option.isNone_none, Bool.true_and, decide_eq_true_eq] at h
    simp [execOne, hb, h, successResult]

theorem execOne_fail (c : String) (b : CmdBehavior) (h : okB b = false) :
    execOne c b = (failResult c b, false) := by
  unfold okB at h
  cases hb : b.start with
  | some e => simp [execOne, hb, failResult]
  | none =>
    rw [hb] at h
    simp only [Option.isNone_none, Bool.true_and, decide_eq_false_iff_not] at h
    simp [execOne, hb, h, failResult]

theorem runCommandSet_nil (beh : Nat → CmdBehavior) : runCommandSet [] beh = ([], []) := rfl

theorem runCommandSet_cons_ok (c : String) (rest : List String) (beh : Nat → CmdBehavior)
    (h : okB (beh 0) = true) :
    runCommandSet (c :: rest) beh =
      (successResult c (beh 0) :: (runCommandSet rest (fun i => beh (i + 1))).1,
       c :: (runCommandSet rest (fun i => beh (i + 1))).2) := by
  simp only [runCommandSet, execOne_ok c (beh 0) h]
  simp

theorem runCommandSet_cons_fail (c : String) (rest : List String) (beh : Nat → CmdBehavior)
    (h : okB (beh 0) = false) :
    runCommandSet (c :: rest) beh = ([failResult c (beh 0)], [c]) := by
  simp only [runCommandSet, execOne_fail c (beh 0) h]
  simp

/-- The results list never outgrows the worklist. -/
theorem runCommandSet_length_le (cmds : List String) :
    ∀ beh : Nat → CmdBehavior, (runCommandSet cmds beh).1.length ≤ cmds.length := by
  induction cmds with
  | nil => intro beh; simp [runCommandSet_nil]
  | cons c rest ih =>
    intro beh
    by_cases h : okB (beh 0) = true
    · rw [runCommandSet_cons_ok c rest beh h]
      exact Nat.succ_le_succ (ih _)
    · rw [runCommandSet_cons_fail c rest beh (by simpa using h)]
      simp

/-- The recorded results carry exactly the first `length results` commands
of the worklist, in submission order. -/
theorem runCommandSet_map_command (cmds : List String) :
    ∀ beh : Nat → CmdBehavior,
      (runCommandSet cmds beh).1.map (fun r => r.command) =
        cmds.take (runCommandSet cmds beh).1.length := by
  induction cmds with
  | nil => intro beh; simp [runCommandSet_nil]
  | cons c rest ih =>
    intro beh
    by_cases h : okB (beh 0) = true
    · rw [runCommandSet_cons_ok c rest beh h]
      simp only [List.map_cons, List.length_cons, List.take_succ_cons]
      rw [ih]
      rfl
    · rw [runCommandSet_cons_fail c rest beh (by simpa using h)]
      simp [failResult]
      cases hb : (beh 0).start <;> simp

/-- The submission log is exactly the prefix of the worklist covered by
the recorded results. -/
theorem runCommandSet_submitted (cmds : List String) :
    ∀ beh : Nat → CmdBehavior,
      (runCommandSet cmds beh).2 = cmds.take (runCommandSet cmds beh).1.length := by
  induction cmds with
  | nil => intro beh; simp [runCommandSet_nil]
  | cons c rest ih =>
    intro beh
    by_cases h : okB (beh 0) = true
    · rw [runCommandSet_cons_ok c rest beh h]
      simp only [List.length_cons, List.take_succ_cons]
      rw [ih]
    · rw [runCommandSet_cons_fail c rest beh (by simpa using h)]
      simp

/-- Success and failure tallies partition the results list. -/
theorem counts_partition (rs : List CommandResult) :
    countSuccesses rs + countFailures rs = rs.length := by
  induction rs with
  | nil => rfl
  | cons r rest ih =>
    unfold countSuccesses countFailures at *
    rw [List.countP_cons, List.countP_cons]
    cases hr : r.success <;> simp [hr] <;> omega

/-- Shape of the command loop when the first failure sits at index `k`:
the results are the `k` successful records followed by the failing
record, and exactly the first `k + 1` commands were submitted. -/
theorem runCommandSet_firstFail (k : Nat) :
    ∀ (cmds : List String) (beh : Nat → CmdBehavior),
      k < cmds.length →
      (∀ i, i < k → okB (beh i) = true) →
      okB (beh k) = false →
      (runCommandSet cmds beh).1 =
        (List.range k).map (fun i => successResult (cmds.getD i "") (beh i)) ++
          [failResult (cmds.getD k "") (beh k)] ∧
      (runCommandSet cmds beh).2 = cmds.take (k + 1) := by
  induction k with
  | zero =>
    intro cmds beh hk hok hfail
    cases cmds with
    | nil => simp at hk
    | cons c rest =>
      rw [runCommandSet_cons_fail c rest beh hfail]
      simp
  | succ k ih =>
    intro cmds beh hk hok hfail
    cases cmds with
    | nil => simp at hk
    | cons c rest =>
      have h0 : okB (beh 0) = true := hok 0 (Nat.succ_pos k)
      rw [runCommandSet_cons_ok c rest beh h0]
      have hk' : k < rest.length := by simpa using hk
      have hok' : ∀ i, i < k → okB (beh (i + 1)) = true := by
        intro i hi
        exact hok (i + 1) (Nat.succ_lt_succ hi)
      have hfail' : okB (beh (k + 1)) = false := hfail
      obtain ⟨h1, h2⟩ := ih rest (fun i => beh (i + 1)) hk' hok' hfail'
      constructor
      · simp only [h1]
        rw [List.range_succ_eq_map]
        simp [List.map_map, Function.comp]
      · simp only [h2]
        rfl

/-- Shape of the command loop when every behavior succeeds: one
successful record per command. -/
theorem runCommandSet_allOk (cmds : List String) :
    ∀ beh : Nat → CmdBehavior,
      (∀ i, i < cmds.length → okB (beh i) = true) →
      (runCommandSet cmds beh).1 =
        (List.range cmds.length).map (fun i => successResult (cmds.getD i "") (beh i)) ∧
      (runCommandSet cmds beh).2 = cmds := by
  induction cmds with
  | nil => intro beh _; simp [runCommandSet_nil]
  | cons c rest ih =>
    intro beh hok
    have h0 : okB (beh 0) = true := hok 0 (Nat.succ_pos _)
    rw [runCommandSet_cons_ok c rest beh h0]
    have hok' : ∀ i, i < rest.length → okB (beh (i + 1)) = true := by
      intro i hi
      exact hok (i + 1) (Nat.succ_lt_succ hi)
    obtain ⟨h1, h2⟩ := ih (fun i => beh (i + 1)) hok'
    constructor
    · simp only [h1, List.length_cons]
      rw [List.range_succ_eq_map]
      simp [List.map_map, Function.comp]
    · simp only [h2]

/-! ## Claim theorems -/

/-- C1: for every valid `commands` input (non-empty string or array) on
which the session reaches ready, `run()` resolves with an
`ExecutionSummary` whatever the individual command outcomes; it rejects
only on a connection-level failure (producing no summary resolution) or,
before any connection attempt, on a malformed `commands` argument. -/
theorem c1_run_rejects_only_on_connection_or_malformed
    (arg : RunArg) (beh : Nat → CmdBehavior) (e : Err) :
    (∀ cmds, normalizeCommands arg = .ok cmds →
      (run arg .ready beh).result = .ok (mkSummary cmds (runCommandSet cmds beh).1) ∧
      (run arg (.error e) beh).result = .error e ∧
      (run arg (.error e) beh).resolveLog = []) ∧
    (normalizeCommands arg = .error invalidCommandsMsg →
      ∀ conn, (run arg conn beh).result = .error invalidCommandsMsg ∧
        (run arg conn beh).connectAttempted = false) := by
  constructor
  · intro cmds hc
    simp [run, hc]
  · intro hc conn
    cases conn <;> simp [run, hc]

/-- Witness for C1 at a concrete input: a one-command list resolves with
the summary on the ready path and rejects with the connection error on
the error path. -/
theorem c1_witness :
    (run (.list ["ls"]) .ready (fun _ => ⟨true, none, [], [], 0⟩)).result =
      .ok (mkSummary ["ls"] (runCommandSet ["ls"] (fun _ => ⟨true, none, [], [], 0⟩)).1) ∧
    (run (.list ["ls"]) (.error "refused") (fun _ => ⟨true, none, [], [], 0⟩)).result =
      .error "refused" :=
  ⟨((c1_run_rejects_only_on_connection_or_malformed (.list ["ls"])
      (fun _ => ⟨true, none, [], [], 0⟩) "refused").1 ["ls"] rfl).1,
   ((c1_run_rejects_only_on_connection_or_malformed (.list ["ls"])
      (fun _ => ⟨true, none, [], [], 0⟩) "refused").1 ["ls"] rfl).2.1⟩

/-- C2: when the first failing behavior (start error or non-zero exit)
sits at index `k` of the worklist, the results list ends exactly there:
it has `k + 1` entries, all entries before the last are successes, the
last entry is the failing record, and only the first `k + 1` commands
were ever submitted to the transport. -/
theorem c2_first_failure_is_last_and_aborts
    (cmds : List String) (beh : Nat → CmdBehavior) (k : Nat)
    (hk : k < cmds.length)
    (hok : ∀ i, i < k → okB (beh i) = true)
    (hfail : okB (beh k) = false) :
    (runCommandSet cmds beh).1.length = k + 1 ∧
    (∀ r ∈ (runCommandSet cmds beh).1.take k, r.success = true) ∧
    (runCommandSet cmds beh).1.getLast? = some (failResult (cmds.getD k "") (beh k)) ∧
    (failResult (cmds.getD k "") (beh k)).success = false ∧
    (runCommandSet cmds beh).2 = cmds.take (k + 1) := by
  obtain ⟨h1, h2⟩ := runCommandSet_firstFail k cmds beh hk hok hfail
  refine ⟨?_, ?_, ?_, ?_, h2⟩
  · rw [h1]; simp
  · intro r hr
    rw [h1] at hr
    have hlen : ((List.range k).map
        (fun i => successResult (cmds.getD i "") (beh i))).length = k := by simp
    rw [List.take_left' hlen] at hr
    obtain ⟨i, _, rfl⟩ := List.mem_map.mp hr
    rfl
  · rw [h1]
    exact List.getLast?_concat _
  · unfold failResult
    cases hb : (beh k).start <;> simp

/-- Witness for C2: three commands with a non-zero exit at index 1 stop
after two submissions, the failure last. -/
theorem c2_witness :
    (runCommandSet ["a", "b", "c"]
      (fun i => if i = 1 then ⟨true, none, [], [], 1⟩ else ⟨true, none, [], [], 0⟩)).1.length = 1 + 1 ∧
    (∀ r ∈ (runCommandSet ["a", "b", "c"]
      (fun i => if i = 1 then ⟨true, none, [], [], 1⟩ else ⟨true, none, [], [], 0⟩)).1.take 1,
        r.success = true) ∧
    (runCommandSet ["a", "b", "c"]
      (fun i => if i = 1 then ⟨true, none, [], [], 1⟩ else ⟨true, none, [], [], 0⟩)).1.getLast? =
      some (failResult (["a", "b", "c"].getD 1 "")
        ((fun i => if i = 1 then ⟨true, none, [], [], 1⟩ else ⟨true, none, [], [], 0⟩) 1)) ∧
    (failResult (["a", "b", "c"].getD 1 "")
      ((fun i => if i = 1 then ⟨true, none, [], [], 1⟩ else ⟨true, none, [], [], 0⟩) 1)).success = false ∧
    (runCommandSet ["a", "b", "c"]
      (fun i => if i = 1 then ⟨true, none, [], [], 1⟩ else ⟨true, none, [], [], 0⟩)).2 =
      ["a", "b", "c"].take (1 + 1) :=
  c2_first_failure_is_last_and_aborts ["a", "b", "c"]
    (fun i => if i = 1 then ⟨true, none, [], [], 1⟩ else ⟨true, none, [], [], 0⟩) 1
    (by decide)
    (by intro i hi; have h0 : i = 0 := by omega
        subst h0; rfl)
    (by rfl)

/-- C3: every summary resolved by `run()` satisfies
`successCount + failureCount = length results ≤ commandCount`,
`commandCount` is the size of the requested list, and `results` carries
the commands in submission order (a prefix of the worklist, never
reordered). -/
theorem c3_summary_invariants
    (arg : RunArg) (beh : Nat → CmdBehavior) (cmds : List String) (s : ExecutionSummary)
    (h1 : normalizeCommands arg = .ok cmds)
    (h2 : (run arg .ready beh).result = .ok s) :
    s.successCount + s.failureCount = s.results.length ∧
    s.results.length ≤ s.commandCount ∧
    s.commandCount = cmds.length ∧
    s.results.map (fun r => r.command) = cmds.take s.results.length := by
  have hs : s = mkSummary cmds (runCommandSet cmds beh).1 := by
    simp [run, h1] at h2
    exact h2.symm
  subst hs
  refine ⟨counts_partition _, ?_, rfl, ?_⟩
  · simpa [mkSummary] using runCommandSet_length_le cmds beh
  · simpa [mkSummary] using runCommandSet_map_command cmds beh

/-- Witness for C3 at a two-command list whose second command fails. -/
theorem c3_witness :
    (mkSummary ["a", "b"] (runCommandSet ["a", "b"]
        (fun i => if i = 1 then ⟨true, none, [], [], 1⟩ else ⟨true, none, [], [], 0⟩)).1).successCount +
      (mkSummary ["a", "b"] (runCommandSet ["a", "b"]
        (fun i => if i = 1 then ⟨true, none, [], [], 1⟩ else ⟨true, none, [], [], 0⟩)).1).failureCount =
      (mkSummary ["a", "b"] (runCommandSet ["a", "b"]
        (fun i => if i = 1 then ⟨true, none, [], [], 1⟩ else ⟨true, none, [], [], 0⟩)).1).results.length :=
  (c3_summary_invariants (.list ["a", "b"])
    (fun i => if i = 1 then ⟨true, none, [], [], 1⟩ else ⟨true, none, [], [], 0⟩)
    ["a", "b"] _ rfl rfl).1

/-- C5: on every exit path from the command loop — whatever the per
command behaviors — the transport session is ended exactly once, and the
first resolution of the `run()` promise is the summary (the later
resolution from the `.finally` handler never displaces it). -/
theorem c5_session_closed_once_summary_delivered
    (arg : RunArg) (beh : Nat → CmdBehavior) (cmds : List String)
    (h : normalizeCommands arg = .ok cmds) :
    (run arg .ready beh).endCount = 1 ∧
    (run arg .ready beh).resolveLog.head? =
      some (some (mkSummary cmds (runCommandSet cmds beh).1)) ∧
    (run arg .ready beh).result = .ok (mkSummary cmds (runCommandSet cmds beh).1) := by
  simp [run, h]

/-- Witness for C5: a run whose only command exits non-zero still ends
the session once and delivers the summary first. -/
theorem c5_witness :
    (run (.list ["a"]) .ready (fun _ => ⟨true, none, [], [], 1⟩)).endCount = 1 ∧
    (run (.list ["a"]) .ready (fun _ => ⟨true, none, [], [], 1⟩)).resolveLog.head? =
      some (some (mkSummary ["a"] (runCommandSet ["a"] (fun _ => ⟨true, none, [], [], 1⟩)).1)) ∧
    (run (.list ["a"]) .ready (fun _ => ⟨true, none, [], [], 1⟩)).result =
      .ok (mkSummary ["a"] (runCommandSet ["a"] (fun _ => ⟨true, none, [], [], 1⟩)).1) :=
  c5_session_closed_once_summary_delivered (.list ["a"]) (fun _ => ⟨true, none, [], [], 1⟩)
    ["a"] rfl

/-- C6: when the start callback of command `k` reports an error (all
earlier commands having succeeded), the loop records for it a result
with `success = false`, the error set, no `exitCode` and empty
stdout/stderr; the record is the last entry of the returned results even
though the remaining worklist is aborted. -/
theorem c6_start_error_result_recorded
    (cmds : List String) (beh : Nat → CmdBehavior) (k : Nat) (e : Err)
    (hk : k < cmds.length)
    (hok : ∀ i, i < k → okB (beh i) = true)
    (hstart : (beh k).start = some e) :
    (runCommandSet cmds beh).1.length = k + 1 ∧
    (runCommandSet cmds beh).1.getLast? = some
      { command := cmds.getD k "", success := false, exitCode := none,
        stdout := "", stderr := "", error := some e } ∧
    (runCommandSet cmds beh).2 = cmds.take (k + 1) := by
  have hfail : okB (beh k) = false := by simp [okB, hstart]
  obtain ⟨h1, h2⟩ := runCommandSet_firstFail k cmds beh hk hok hfail
  refine ⟨?_, ?_, h2⟩
  · rw [h1]; simp
  · rw [h1, List.getLast?_concat]
    simp [failResult, hstart]

/-- Witness for C6: a start error on the second of three commands. -/
theorem c6_witness :
    (runCommandSet ["a", "b", "c"]
      (fun i => if i = 1 then ⟨true, some "boom", [], [], 0⟩ else ⟨true, none, [], [], 0⟩)).1.length = 1 + 1 ∧
    (runCommandSet ["a", "b", "c"]
      (fun i => if i = 1 then ⟨true, some "boom", [], [], 0⟩ else ⟨true, none, [], [], 0⟩)).1.getLast? =
      some { command := ["a", "b", "c"].getD 1 "", success := false, exitCode := none,
             stdout := "", stderr := "", error := some "boom" } ∧
    (runCommandSet ["a", "b", "c"]
      (fun i => if i = 1 then ⟨true, some "boom", [], [], 0⟩ else ⟨true, none, [], [], 0⟩)).2 =
      ["a", "b", "c"].take (1 + 1) :=
  c6_start_error_result_recorded ["a", "b", "c"]
    (fun i => if i = 1 then ⟨true, some "boom", [], [], 0⟩ else ⟨true, none, [], [], 0⟩) 1 "boom"
    (by decide)
    (by intro i hi; have h0 : i = 0 := by omega
        subst h0; rfl)
    (by rfl)

/-- C7: for every non-empty command string, `run(s)` behaves identically
to `run([s])` in every respect — the string is normalized to a
one-element worklist before any connection attempt. -/
theorem c7_string_normalized_to_singleton
    (s : String) (h : 1 ≤ s.length) (conn : ConnOutcome) (beh : Nat → CmdBehavior) :
    run (.str s) conn beh = run (.list [s]) conn beh := by
  simp [run, normalizeCommands, h]

/-- Witness for C7 at the command `"ls"`. -/
theorem c7_witness :
    run (.str "ls") .ready (fun _ => ⟨true, none, [], [], 0⟩) =
      run (.list ["ls"]) .ready (fun _ => ⟨true, none, [], [], 0⟩) :=
  c7_string_normalized_to_singleton "ls" (by decide) .ready (fun _ => ⟨true, none, [], [], 0⟩)

/-- C10: an empty command list is accepted: `run([])` resolves with a
summary with `commandCount = 0`, empty results and zero tallies, after a
session was opened and closed once with no command submitted. -/
theorem c10_empty_command_list (beh : Nat → CmdBehavior) :
    run (.list []) .ready beh =
      { result := .ok { commandCount := 0, successCount := 0, failureCount := 0, results := [] },
        connectAttempted := true, endCount := 1,
        resolveLog := [some { commandCount := 0, successCount := 0, failureCount := 0, results := [] }, none],
        submitted := [] } := rfl

/-- C4: the backpressure protocol of the command loop. While the engine
waits for a `continue` notification (the one-shot `_finishMethod` is
installed), no other transport event submits anything; the `continue`
notification submits exactly the next worklist command and uninstalls the
slot, so an immediately repeated `continue` — or one received when no
resume action is installed — is a no-op: no double-submission, no skipped
command. Closing a command with exit code 0 while its `exec` call
returned `false` enters the waiting phase without submitting. -/
theorem c4_backpressure_continue_protocol
    (ready : Nat → Bool) (s : EState) (hs : s.phase = Phase.waiting) :
    (∀ e, e ≠ Event.cont → step ready s e = s) ∧
    (step ready s Event.cont).subLog = s.subLog ++ s.queue.take 1 ∧
    (step ready s Event.cont).queue = s.queue.drop 1 ∧
    (step ready s Event.cont).phase ≠ Phase.waiting ∧
    (∀ t : EState, t.phase ≠ Phase.waiting → step ready t Event.cont = t) ∧
    (∀ (t : EState) (c : CurrentCmd), t.phase = Phase.streaming c → c.callNext = false →
      step ready t (Event.close 0) =
        { t with phase := Phase.waiting, results := modifyLast (closeResult 0) t.results }) := by
  refine ⟨?_, ?_, ?_, ?_, ?_, ?_⟩
  · intro e he
    cases e <;> simp [step, hs] at he ⊢
  · cases hq : s.queue <;> simp [step, hs, submitNext, hq]
  · cases hq : s.queue <;> simp [step, hs, submitNext, hq]
  · cases hq : s.queue <;> simp [step, hs, submitNext, hq]
  · intro t ht
    cases hp : t.phase <;> simp [step, hp]
    exact absurd hp ht
  · intro t c htc hcn
    simp [step, htc, hcn]

/-- Witness for C4 at a concrete waiting state: a stray `data` event
submits nothing, and the `continue` notification submits exactly the
queued command. -/
theorem c4_witness :
    (step (fun _ => true) ⟨["b"], Phase.waiting, [], ["a"]⟩ (Event.data "x") =
      (⟨["b"], Phase.waiting, [], ["a"]⟩ : EState)) ∧
    (step (fun _ => true) ⟨["b"], Phase.waiting, [], ["a"]⟩ Event.cont).subLog =
      ["a"] ++ (["b"].take 1) :=
  ⟨(c4_backpressure_continue_protocol (fun _ => true)
      ⟨["b"], Phase.waiting, [], ["a"]⟩ rfl).1 (Event.data "x") (by decide),
   (c4_backpressure_continue_protocol (fun _ => true)
      ⟨["b"], Phase.waiting, [], ["a"]⟩ rfl).2.1⟩

/-- Constructor invariant: a successfully built client carries the
blanked credentials of its options, an empty key cache, and not both
credentials absent. -/
theorem mkRemoteClient_ok_shape (o : ClientOptions) (c : RemoteClient)
    (h : mkRemoteClient o = .ok c) :
    c.password = normPassword o ∧ c.privateKey = normKey o ∧ c.privateKeyData = none ∧
    ((normKey o).isNone && (normPassword o).isNone) = false := by
  unfold mkRemoteClient at h
  split at h
  · exact absurd h (by simp)
  · split at h
    · exact absurd h (by simp)
    · split at h
      · exact absurd h (by simp)
      · rename_i hcred
        injection h with h2
        subst h2
        refine ⟨rfl, rfl, rfl, ?_⟩
        exact Bool.eq_false_iff.mpr hcred

/-- C8: the resolved connection parameters carry exactly one
authentication credential. With no private-key reference the password is
the credential and no `privateKey`/`passphrase` fields are produced; with
a private-key reference the loaded key bytes are the credential, the
`password` field is never produced, and the configured password appears
only as the `passphrase` field. -/
theorem c8_exactly_one_credential
    (o : ClientOptions) (c : RemoteClient) (fs : String → Except Err String)
    (h : mkRemoteClient o = .ok c) :
    (c.privateKey = none →
      (getConnectionOptions fs c).result = .ok
        { host := c.host, port := c.port, username := c.username,
          password := c.password, passphrase := none, privateKey := none } ∧
      c.password.isSome = true) ∧
    (∀ p, c.privateKey = some p →
      ∀ opts, (getConnectionOptions fs c).result = .ok opts →
        opts.password = none ∧ opts.passphrase = c.password ∧
        opts.privateKey.isSome = true) := by
  obtain ⟨hpw, hpk, hpd, hcred⟩ := mkRemoteClient_ok_shape o c h
  constructor
  · intro hnone
    constructor
    · simp [getConnectionOptions, hnone]
    · rw [hnone] at hpk
      rw [hpw]
      cases hk : normKey o with
      | some k => rw [hk] at hpk; exact absurd hpk (by simp)
      | none =>
        rw [hk] at hcred
        simpa using hcred
  · intro p hp opts hopts
    cases hd : c.privateKeyData with
    | some cached =>
      simp [getConnectionOptions, hp, hd] at hopts
      subst hopts
      simp
    | none =>
      cases hfs : fs p with
      | error e => simp [getConnectionOptions, hp, hd, hfs] at hopts
      | ok d =>
        simp [getConnectionOptions, hp, hd, hfs] at hopts
        subst hopts
        simp

/-- Witness for C8: a password-only client resolves with the password as
the only credential. -/
theorem c8_witness :
    (getConnectionOptions (fun _ => .error "no fs")
        ⟨"h", 22, "u", some "pw", none, none⟩).result = .ok
      { host := (⟨"h", 22, "u", some "pw", none, none⟩ : RemoteClient).host,
        port := (⟨"h", 22, "u", some "pw", none, none⟩ : RemoteClient).port,
        username := (⟨"h", 22, "u", some "pw", none, none⟩ : RemoteClient).username,
        password := (⟨"h", 22, "u", some "pw", none, none⟩ : RemoteClient).password,
        passphrase := none, privateKey := none } ∧
    (⟨"h", 22, "u", some "pw", none, none⟩ : RemoteClient).password.isSome = true :=
  (c8_exactly_one_credential ⟨some "h", none, some "u", some "pw", none⟩
    ⟨"h", 22, "u", some "pw", none, none⟩ (fun _ => .error "no fs") rfl).1 rfl

/-- C9: key-material caching. On a client with a key reference and an
empty cache, a failed storage read rejects with the underlying error
after one read; a successful read caches the material, and any later
resolution on the resulting client performs zero reads and returns the
same parameters and state — so two sequential resolutions trigger
exactly one storage read. -/
theorem c9_key_loaded_once_then_cached
    (fs fs2 : String → Except Err String) (c : RemoteClient) (p : String)
    (hp : c.privateKey = some p) (hd : c.privateKeyData = none) :
    (∀ e, fs p = .error e →
      (getConnectionOptions fs c).result = .error e ∧
      (getConnectionOptions fs c).reads = 1) ∧
    (∀ d, fs p = .ok d →
      (getConnectionOptions fs c).reads = 1 ∧
      (getConnectionOptions fs2 (getConnectionOptions fs c).client).reads = 0 ∧
      (getConnectionOptions fs2 (getConnectionOptions fs c).client).result =
        (getConnectionOptions fs c).result ∧
      (getConnectionOptions fs2 (getConnectionOptions fs c).client).client =
        (getConnectionOptions fs c).client) := by
  constructor
  · intro e hfs
    simp [getConnectionOptions, hp, hd, hfs]
  · intro d hfs
    simp [getConnectionOptions, hp, hd, hfs]

/-- Witness for C9: one successful read, then a second resolution that
reads nothing even against a failing file system. -/
theorem c9_witness :
    (getConnectionOptions (fun _ => .ok "KEY")
        ⟨"h", 22, "u", some "pw", some "/k", none⟩).reads = 1 ∧
    (getConnectionOptions (fun _ => .error "gone")
      (getConnectionOptions (fun _ => .ok "KEY")
        ⟨"h", 22, "u", some "pw", some "/k", none⟩).client).reads = 0 ∧
    (getConnectionOptions (fun _ => .error "gone")
      (getConnectionOptions (fun _ => .ok "KEY")
        ⟨"h", 22, "u", some "pw", some "/k", none⟩).client).result =
      (getConnectionOptions (fun _ => .ok "KEY")
        ⟨"h", 22, "u", some "pw", some "/k", none⟩).result ∧
    (getConnectionOptions (fun _ => .error "gone")
      (getConnectionOptions (fun _ => .ok "KEY")
        ⟨"h", 22, "u", some "pw", some "/k", none⟩).client).client =
      (getConnectionOptions (fun _ => .ok "KEY")
        ⟨"h", 22, "u", some "pw", some "/k", none⟩).client :=
  (c9_key_loaded_once_then_cached (fun _ => .ok "KEY") (fun _ => .error "gone")
    ⟨"h", 22, "u", some "pw", some "/k", none⟩ "/k" rfl rfl).2 "KEY" rfl

end SshUtils
